import Mathlib

/-!
Shallow embedding of the layer-composition builder of the tower repository
(`src/tower/src/builder/mod.rs`): the `ServiceBuilder` accumulator, the
`Identity` no-op layer, the pair-combinator semantics used by `chain`, and
the two terminal build operations `build_svc` and `build_maker`.

Conventions of the embedding: Rust `Result` becomes `Except`; the
asynchronous parts (futures returned by services and makers) are collapsed
to their eventual results, which is faithful for the builder because it
never inspects them; type-level generics become Lean type parameters.
-/

set_option autoImplicit false

/-- Alias `Error` of mod.rs line 12: `Box<dyn std::error::Error + Send + Sync>`,
the uniform type-erased error every layer error converts into. Modelled as a
string message, standing in for an arbitrary boxed error value. -/
abbrev BoxedError := String

/-- Type `never::Never` (imported at mod.rs line 6): uninhabited, used as
`Identity`'s `LayerError` associated type. -/
inductive Never : Type

/-- Eliminator for the empty `Never` type (a value of it cannot exist). -/
def Never.elim {C : Sort _} (e : Never) : C := nomatch e

/-- A layer on the composition path (the `Layer` trait as used by `chain` and
`build_svc`): fallibly turns an inner service of type `α` into an outer
service of type `β`, its own `LayerError` already erased into `BoxedError`
via the `Into<Error>` bounds the builder imposes. -/
abbrev Layer (α β : Type) := α → Except BoxedError β

/-- Struct `Identity` (mod.rs lines 205-208): fieldless no-op middleware. -/
structure Identity where
  _p : Unit

/-- Constructor `Identity::new` (mod.rs lines 212-214). -/
def Identity.new : Identity := ⟨()⟩

/-- Function `Identity::layer` (mod.rs lines 228-230): `Ok(inner)`, with the
associated `LayerError = Never`. The `&self` receiver of the fieldless
struct carries no data and is omitted. -/
def Identity.layer {α : Type} (inner : α) : Except Never α := Except.ok inner

/-- The accumulated layer stack: the shapes the builder's `L` type parameter
takes, namely `Identity` right after `ServiceBuilder::new` and
`Chain<L, T>` after each `chain` call, each pairing remembering
(already-accumulated, newly-added). `Stack σ τ` decorates a service of type
`σ` into one of type `τ`. -/
inductive Stack : Type → Type → Type 1
  | identity {σ : Type} : Stack σ σ
  | chain {σ μ ν : Type} (inner : Stack σ μ) (outer : Layer μ ν) : Stack σ ν

/-- Modelled from the spec: `Chain::layer` of tower-layer's pair combinator
(`tower_layer::util::Chain`, whose source file is not under src/). Applying
the accumulated stack to a handler applies the already-accumulated part to
the handler first and the newly supplied layer to the result — the direction
forced by the trait bounds of `ServiceBuilder::chain` in mod.rs lines
171-175 (`L: Layer<S, Request>`, `T: Layer<L::Service, Request>`) — and it
short-circuits with the first failing layer's erased error, per the spec's
short-circuit and uniform-boxed-error rules. The base case is
`Identity::layer` from src (mod.rs lines 228-230). -/
def Stack.run {σ τ : Type} : Stack σ τ → σ → Except BoxedError τ
  | .identity, s => (Identity.layer s).mapError Never.elim
  | .chain rest t, s => (rest.run s).bind t

/-- Struct `ServiceBuilder` (mod.rs lines 153-157): holds the accumulated
layer. The phantom `S, Request` parameters carry no data and are dropped;
`σ` is the service type the stack consumes and `τ` the one it produces. -/
structure ServiceBuilder (σ τ : Type) : Type 1 where
  layer : Stack σ τ

/-- Function `ServiceBuilder::new` (mod.rs lines 161-166): the accumulator
starts as `Identity::new()`. -/
def ServiceBuilder.new {σ : Type} : ServiceBuilder σ σ := ⟨Stack.identity⟩

/-- Function `ServiceBuilder::chain` (mod.rs lines 171-180): consumes the
builder and returns a new one whose accumulator pairs the current layer
with the new one (`self.layer.chain(layer)`, i.e. `Chain<L, T>` with the
accumulated layer on the inner side). Total: never fails. -/
def ServiceBuilder.chain {σ μ ν : Type} (b : ServiceBuilder σ μ) (t : Layer μ ν) :
    ServiceBuilder σ ν :=
  ⟨Stack.chain b.layer t⟩

/-- Function `ServiceBuilder::build_svc` (mod.rs lines 192-198): wraps the
service with the accumulated layers, `self.layer.layer(service)`. -/
def ServiceBuilder.build_svc {σ τ : Type} (b : ServiceBuilder σ τ) (service : σ) :
    Except BoxedError τ :=
  b.layer.run service

/-- Modelled from the spec: struct `ServiceBuilderMaker` (declared in
`builder/service.rs`, which is not under src/): the handler-factory
decoration wrapper owns the maker and the accumulated layer stack. -/
structure ServiceBuilderMaker (Target MakeErr σ τ : Type) : Type 1 where
  maker : Target → Except MakeErr σ
  layer : Stack σ τ

/-- Modelled from the spec: constructor `ServiceBuilderMaker::new` (in
`builder/service.rs`, not under src/): stores the maker and the layer. -/
def ServiceBuilderMaker.new {Target MakeErr σ τ : Type}
    (m : Target → Except MakeErr σ) (l : Stack σ τ) :
    ServiceBuilderMaker Target MakeErr σ τ :=
  ⟨m, l⟩

/-- Function `ServiceBuilder::build_maker` (mod.rs lines 183-189):
`ServiceBuilderMaker::new(maker, self.layer)`. Total: never fails. -/
def ServiceBuilder.build_maker {Target MakeErr σ τ : Type}
    (b : ServiceBuilder σ τ) (m : Target → Except MakeErr σ) :
    ServiceBuilderMaker Target MakeErr σ τ :=
  ServiceBuilderMaker.new m b.layer

/-- Modelled from the spec: the wrapper's production step (the `Service`
impl of `ServiceBuilderMaker` in `builder/service.rs`, not under src/): a
production awaits the maker's handler for the target; on maker failure that
error is forwarded unchanged and decoration is never attempted; on success
the accumulated decoration is applied to the produced handler, a decoration
failure failing the whole production. -/
def ServiceBuilderMaker.make {Target MakeErr σ τ : Type}
    (w : ServiceBuilderMaker Target MakeErr σ τ) (t : Target) :
    Except (MakeErr ⊕ BoxedError) τ :=
  match w.maker t with
  | Except.error e => Except.error (Sum.inl e)
  | Except.ok s => (w.layer.run s).mapError Sum.inr

/-- Trait `tower_service::Service`, modelled synchronously: a readiness
observation (`poll_ready`) and the call, its future collapsed to the
eventual `Result`. The builder core never inspects either, so this is
faithful at its boundary. -/
structure Service (Req Res Err : Type) where
  poll_ready : Except Err Bool
  call : Req → Except Err Res

/-- The full shape of the `Layer<S, Request>` trait (tower-layer), with its
associated types `Response`, `Error`, `LayerError`, `Service` and the
fallible decoration function, used to state type-level claims about the
`Identity` impl. -/
structure LayerImpl (S Req : Type) : Type 1 where
  Response : Type
  Error : Type
  LayerError : Type
  Service : Type
  layer : S → Except LayerError Service

/-- Impl `Layer<S, Request> for Identity` (mod.rs lines 218-231): available
only under the bound `S::Error: Into<Error>` (line 221), which the embedding
renders as the explicit `intoBoxed` argument; it sets `Response := S::Response`,
`Error := S::Error`, `LayerError := Never`, `Service := S`, and
`layer(inner) = Ok(inner)`. -/
def Identity.impl (Req Res Err : Type) (intoBoxed : Err → BoxedError) :
    LayerImpl (Service Req Res Err) Req where
  Response := Res
  Error := Err
  LayerError := Never
  Service := Service Req Res Err
  layer := fun inner => Except.ok inner

/-! Concrete layers and handlers used to exercise the builder, in the style
of the instrumented decorators the spec's order-law test describes. -/

/-- A trace-instrumented service: a function from a request event trace to a
response event trace, used to observe the traversal order of a built stack. -/
abbrev TraceSvc := List String → List String

/-- A trace-instrumented wrapper layer: its wrapper records passing the
request on the way in and the response on the way out, tagged with its name.
Its construction never fails. -/
def traceDec (tag : String) : Layer TraceSvc TraceSvc :=
  fun inner => Except.ok (fun req => (inner (req ++ ["req:" ++ tag])) ++ ["res:" ++ tag])

/-- A terminal handler that records being reached. -/
def traceHandler : TraceSvc := fun req => req ++ ["handler"]

/-- A concrete decorator on `Nat`-modelled services: wrapper construction
succeeds, producing `n + 1`. -/
def decA : Layer Nat Nat := fun n => Except.ok (n + 1)

/-- A variant of `decA` producing `n + 2`, used to detect whether the inner
decorator's construction step influenced an outer failure. -/
def decA2 : Layer Nat Nat := fun n => Except.ok (n + 2)

/-- A concrete decorator whose wrapper construction succeeds, producing `n * 2`. -/
def decB : Layer Nat Nat := fun n => Except.ok (n * 2)

/-- A decorator whose wrapper construction always fails with error "boom". -/
def failDec : Layer Nat Nat := fun _ => Except.error "boom"

/-- A decorator whose wrapper construction fails with an error that records
the inner service value it was handed. -/
def failWith : Layer Nat Nat := fun m => Except.error (toString m)

/-- The stack of the order-law scenario `new().chain(A).chain(B).build_svc(H)`
with trace-instrumented decorators A and B around `traceHandler`. -/
def tracedBuild : Except BoxedError TraceSvc :=
  ((ServiceBuilder.new.chain (traceDec "A")).chain (traceDec "B")).build_svc traceHandler

/-- Iterated chaining of a list of same-typed layers, as in the examples and
tests of the repository that chain several layers in sequence. -/
def chainMany {α : Type} (b : ServiceBuilder α α) (ds : List (Layer α α)) :
    ServiceBuilder α α :=
  ds.foldl ServiceBuilder.chain b

/-- The accumulator of an iterated chain is the iterated structural pairing. -/
theorem chainMany_layer {α : Type} (ds : List (Layer α α)) :
    ∀ b : ServiceBuilder α α, (chainMany b ds).layer = ds.foldl Stack.chain b.layer := by
  induction ds with
  | nil => intro b; rfl
  | cons d rest ih => intro b; exact ih (b.chain d)

/-- Claim C1, counterexample to the response-order clause: with
trace-instrumented decorators, `new().chain(A).chain(B).build_svc(H)` on an
empty request yields the trace `[req:B, req:A, handler, res:A, res:B]`, in
which A's response post-processing event `res:A` (index 3) comes before B's
`res:B` (index 4) — so A's response post-processing runs before B's, not
after it as the claim states. -/
theorem response_postprocessing_order_cex :
    tracedBuild.map (fun f => f []) =
      Except.ok ["req:B", "req:A", "handler", "res:A", "res:B"] ∧
    (["req:B", "req:A", "handler", "res:A", "res:B"].indexOf "res:A" <
      ["req:B", "req:A", "handler", "res:A", "res:B"].indexOf "res:B") :=
  ⟨rfl, by decide⟩

/-- Claim C1, as amended: for any decorators A and B chained as
`new().chain(A).chain(B).build_svc(H)`, the built stack decorates H with A
first and wraps B around the result, so the most recently chained decorator
B is the outermost wrapper; with trace-instrumented decorators the traversal
order of any request is: B's request logic, then A's, then the handler, then
A's response post-processing, then B's — B intercepts requests first and
sees responses last. -/
theorem order_law_last_chained_outermost :
    (∀ (σ μ ν : Type) (A : Layer σ μ) (B : Layer μ ν) (H : σ),
      ((ServiceBuilder.new.chain A).chain B).build_svc H = (A H).bind B) ∧
    (∀ (a b : String) (base : TraceSvc) (req : List String),
      ((((ServiceBuilder.new.chain (traceDec a)).chain (traceDec b)).build_svc base).map
          (fun f => f req)) =
        Except.ok ((base ((req ++ ["req:" ++ b]) ++ ["req:" ++ a]) ++ ["res:" ++ a])
          ++ ["res:" ++ b])) :=
  ⟨fun _ _ _ _ _ _ => rfl, fun _ _ _ _ => rfl⟩

/-- Claim C2, counterexample: with the accumulated decorator `decA` (wrapper
construction `n + 1`) and the newly supplied `decB` (wrapper construction
`n * 2`), applying the composite to the handler `5` yields `Ok 12`, i.e.
`decB (decA 5)`, whereas decorating `5` first with the newly supplied `decB`
and then with the accumulated `decA` — the order the claim prescribes —
yields `Ok 11`; the two disagree. -/
theorem pair_application_order_cex :
    ((ServiceBuilder.new.chain decA).chain decB).build_svc 5 = Except.ok 12 ∧
    (decB 5).bind decA = Except.ok 11 ∧
    ¬ (((ServiceBuilder.new.chain decA).chain decB).build_svc 5 = (decB 5).bind decA) :=
  ⟨rfl, rfl, fun h => absurd (Except.ok.inj h) (by decide)⟩

/-- Claim C2, as amended: applying the composite produced by pairing the
already-accumulated stack with a newly supplied decorator B to a handler H
is defined as first decorating H with the accumulated stack and then
decorating the result with B; forming the composite itself is total
structural pairing and never fails. -/
theorem pair_applies_accumulated_first (σ μ ν : Type) (acc : Stack σ μ) (B : Layer μ ν)
    (H : σ) :
    ((ServiceBuilder.mk acc).chain B).build_svc H = (acc.run H).bind B ∧
    (ServiceBuilder.mk acc).chain B = ServiceBuilder.mk (Stack.chain acc B) :=
  ⟨rfl, rfl⟩

/-- Claim C3: with no decorators chained, `ServiceBuilder::new().build_svc(H)`
always succeeds and returns exactly the input handler unchanged — for any
service type, and in particular for the `Service` model, where the returned
handler therefore has the same readiness result and the same invocation
results as H on all inputs. -/
theorem identity_law_build_svc (Req Res Err : Type) (H : Service Req Res Err) :
    (∀ (σ : Type) (s : σ), ServiceBuilder.new.build_svc s = Except.ok s) ∧
    ServiceBuilder.new.build_svc H = Except.ok H ∧
    (∃ H' : Service Req Res Err, ServiceBuilder.new.build_svc H = Except.ok H' ∧
      H'.poll_ready = H.poll_ready ∧ H'.call = H.call) :=
  ⟨fun _ _ => rfl, rfl, ⟨H, rfl, rfl, rfl⟩⟩

/-- Claim C4, counterexample: chain an inner decorator (`decA`, construction
`n + 1`) and then an outer decorator (`failWith`) whose construction fails
with an error recording the service it was handed. On handler `5` the build
fails with error "6": the outer decorator's failure message contains the
value produced by the inner decorator's construction step, and swapping the
inner decorator for `decA2` changes the returned error to "7" — so the
wrapper-construction step of the decorator inside the failing one WAS
invoked (the result depends on it), contrary to the claim. -/
theorem inner_construction_runs_cex :
    ((ServiceBuilder.new.chain decA).chain failWith).build_svc 5 = Except.error "6" ∧
    ((ServiceBuilder.new.chain decA2).chain failWith).build_svc 5 = Except.error "7" ∧
    ¬ (((ServiceBuilder.new.chain decA).chain failWith).build_svc 5 =
      ((ServiceBuilder.new.chain decA2).chain failWith).build_svc 5) :=
  ⟨rfl, rfl, fun h => absurd (Except.error.inj h) (by decide)⟩

/-- Claim C4, as amended: wrapper construction proceeds from the innermost
decorator outwards and short-circuits at the first failure: if the
accumulated (inner) part fails, `build_svc` returns exactly that first
failing decorator's erased error, no partial wrapper, and the
wrapper-construction step of the decorator outside the failing one is never
invoked (the result is the same whatever that outer decorator is); if the
inner part succeeds, the outer decorator is applied to its fully
constructed result. -/
theorem failure_short_circuit (σ μ ν : Type) (rest : Stack σ μ) (d d' : Layer μ ν)
    (H : σ) (e : BoxedError) :
    (rest.run H = Except.error e →
      ((ServiceBuilder.mk (Stack.chain rest d)).build_svc H = Except.error e ∧
        (ServiceBuilder.mk (Stack.chain rest d)).build_svc H =
          (ServiceBuilder.mk (Stack.chain rest d')).build_svc H)) ∧
    (∀ m : μ, rest.run H = Except.ok m →
      (ServiceBuilder.mk (Stack.chain rest d)).build_svc H = d m) := by
  constructor
  · intro h
    constructor
    · show (rest.run H).bind d = Except.error e
      rw [h]; rfl
    · show (rest.run H).bind d = (rest.run H).bind d'
      rw [h]; rfl
  · intro m h
    show (rest.run H).bind d = d m
    rw [h]; rfl

/-- Claim C4, witness: a stack whose inner part fails with "boom" propagates
exactly that error past the outer decorator `decA`, and a stack whose inner
part is the bare identity hands `0` to `decA`. -/
theorem failure_short_circuit_witness :
    ((ServiceBuilder.mk (Stack.chain (Stack.chain Stack.identity failDec) decA)).build_svc 0 =
      Except.error "boom") ∧
    ((ServiceBuilder.mk (Stack.chain Stack.identity decA)).build_svc 0 = decA 0) :=
  ⟨((failure_short_circuit Nat Nat Nat (Stack.chain Stack.identity failDec) decA decB 0
      "boom").1 rfl).1,
    (failure_short_circuit Nat Nat Nat Stack.identity decA decB 0 "boom").2 0 rfl⟩

/-- Claim C5: `chain` is total (never fails) and returns a new builder whose
accumulator is the pairing of (already-accumulated, newly-added); hence
after chaining layers `L1 .. LN` starting from `new()`, the accumulator is
the nested pairing of those layers, innermost first, around the `Identity`
starting value — each pairing holding the already-accumulated stack on its
inner side and the newly added layer on its outer side. -/
theorem accumulator_nested_pairing (α : Type) (ds : List (Layer α α)) :
    (∀ (σ μ ν : Type) (b : ServiceBuilder σ μ) (d : Layer μ ν),
      b.chain d = ServiceBuilder.mk (Stack.chain b.layer d)) ∧
    (chainMany ServiceBuilder.new ds).layer = ds.foldl Stack.chain Stack.identity :=
  ⟨fun _ _ _ _ _ => rfl, chainMany_layer ds ServiceBuilder.new⟩

/-- Claim C6: whenever the wrapped factory produces a handler H for a
target, the factory wrapper returned by `build_maker` hands back exactly the
result of decorating H with the same builder's accumulated stack — i.e. the
same result `build_svc` gives on that handler (its decoration error injected
into the production-error side). -/
theorem factory_fidelity (Target MakeErr σ τ : Type)
    (m : Target → Except MakeErr σ) (L : Stack σ τ) (t : Target) (H : σ)
    (h : m t = Except.ok H) :
    ((ServiceBuilder.mk L).build_maker m).make t =
      ((ServiceBuilder.mk L).build_svc H).mapError Sum.inr := by
  show (match m t with
    | Except.error e => Except.error (Sum.inl e)
    | Except.ok s => (L.run s).mapError Sum.inr) = (L.run H).mapError Sum.inr
  rw [h]

/-- Claim C6, witness: a maker that produces the handler `7` for the unit
target, under the empty stack. -/
theorem factory_fidelity_witness :
    ((ServiceBuilder.mk (Stack.identity : Stack Nat Nat)).build_maker
        (fun _ : Unit => (Except.ok 7 : Except String Nat))).make () =
      ((ServiceBuilder.mk (Stack.identity : Stack Nat Nat)).build_svc 7).mapError Sum.inr :=
  factory_fidelity Unit String Nat Nat (fun _ => Except.ok 7) Stack.identity () 7 rfl

/-- Claim C7: `build_maker` never fails — it is total and returns a wrapper
value that owns exactly the supplied maker and the builder's accumulator —
and decoration work is deferred: each production call consults the maker
and only then applies the accumulated decoration, so failures surface
per-production. -/
theorem build_maker_total_owns_parts (Target MakeErr σ τ : Type)
    (b : ServiceBuilder σ τ) (m : Target → Except MakeErr σ) :
    (b.build_maker m).maker = m ∧
    (b.build_maker m).layer = b.layer ∧
    ∀ t : Target, (b.build_maker m).make t =
      (match m t with
        | Except.error e => Except.error (Sum.inl e)
        | Except.ok s => (b.layer.run s).mapError Sum.inr) :=
  ⟨rfl, rfl, fun _ => rfl⟩

/-- Claim C8: `Identity::layer` always succeeds and returns its argument
unchanged; its `LayerError` type `Never` is uninhabited, so the error branch
of the no-op decoration path can never be taken. -/
theorem identity_layer_infallible :
    (∀ (α : Type) (s : α), Identity.layer s = Except.ok s) ∧
    (∀ e : Never, False) ∧
    (∀ (α : Type) (s : α) (e : Never), ¬ (Identity.layer s = Except.error e)) := by
  refine ⟨fun α s => rfl, ?_, ?_⟩
  · intro e
    exact e.elim
  · intro α s e h
    exact e.elim

/-- Claim C9: the `Identity` layer impl sets its `Response` and `Error`
associated types to exactly the inner service's response and error types and
its `Service` type to the inner service type itself, and returns the handler
unchanged — the zero-decorator build preserves the handler's response and
error types with no boxing or erasure of the handler's error. -/
theorem identity_impl_preserves_types (Req Res Err : Type) (ib : Err → BoxedError) :
    (Identity.impl Req Res Err ib).Response = Res ∧
    (Identity.impl Req Res Err ib).Error = Err ∧
    (Identity.impl Req Res Err ib).Service = Service Req Res Err ∧
    ∀ H : Service Req Res Err, (Identity.impl Req Res Err ib).layer H = Except.ok H :=
  ⟨rfl, rfl, rfl, fun _ => rfl⟩

/-- Claim C10: the `Identity` layer impl exists only given a conversion of
the service's error type into the uniform boxed error (the
`S::Error: Into<Error>` bound of mod.rs line 221, the explicit `intoBoxed`
argument of `Identity.impl`); under any such conversion the no-op contract
holds — `LayerError` is the uninhabited `Never` and decoration always
succeeds, returning the handler unchanged. -/
theorem identity_impl_requires_boxable_error (Req Res Err : Type) (ib : Err → BoxedError) :
    (Identity.impl Req Res Err ib).LayerError = Never ∧
    ∀ H : Service Req Res Err, (Identity.impl Req Res Err ib).layer H = Except.ok H :=
  ⟨rfl, fun _ => rfl⟩
